import Mathlib

/-!
Verification of the sampling / greedy-search decoding components of the
onnxruntime excerpt:
  * `contrib_ops/cpu/transformers/greedy_search_impl_base.h`
    (`GreedySearchBase::CheckInputs`, `::Initialize`, `::ProcessLogits`,
    `::GenerateNextToken`),
  * `contrib_ops/cpu/transformers/sampling.cc` (`Sampling::Compute`),
  * `core/providers/js/data_transfer.cc`
    (`DataTransfer::CanCopy`, `DataTransfer::CopyTensor`).
Each C++ function is shallowly embedded as an executable Lean definition;
external collaborators (allocators, the beam scorer, the device-helper
function bundle) are passed in as explicit parameters holding the result
they would produce.
-/

namespace OnnxRT

/-- The names of the scalar inputs validated by the `CHECK_SCALAR_INPUT`
macro in `GreedySearchBase::Initialize`. -/
inductive ScalarInputName
  | max_length
  | min_length
deriving DecidableEq, Repr

/-- Structured rendering of the error messages built by `ORT_MAKE_STATUS`
in the embedded code.  Each constructor carries exactly the data the C++
message string interpolates:
  * `inputIdsRank got` — "Input 'input_ids' is expected to have 2
    dimensions, got `got`" (from `CheckInputs`);
  * `scalarShape name shape` — "'BeamSearch' input `name` should be a
    scalar. Got shape of `shape`" (from `CHECK_SCALAR_INPUT`);
  * `requiredMissing name` — "'BeamSearch' input `name` is required"
    (from `CHECK_SCALAR_INPUT` with `required = true`);
  * `external id` — an opaque error produced by an external collaborator
    (allocator, device helper, subgraph execution). -/
inductive ErrMsg
  | inputIdsRank (got : Nat)
  | scalarShape (name : ScalarInputName) (shape : List Nat)
  | requiredMissing (name : ScalarInputName)
  | external (id : Nat)
deriving DecidableEq, Repr

/-- onnxruntime `common::StatusCode` values used by the embedded code. -/
inductive ErrCode
  | INVALID_ARGUMENT
  | FAIL
deriving DecidableEq, Repr

/-- onnxruntime `common::Status`: either `Status::OK()` or an error
carrying a status code and a message. -/
inductive Status
  | ok
  | error (code : ErrCode) (msg : ErrMsg)
deriving DecidableEq, Repr

/-- `Status::IsOK()`. -/
def Status.IsOK : Status → Bool
  | .ok => true
  | .error _ _ => false

theorem Status.IsOK_iff (s : Status) : s.IsOK = true ↔ s = .ok := by
  cases s <;> simp [Status.IsOK]

@[simp] theorem Status.isOK_ok : Status.ok.IsOK = true := rfl

@[simp] theorem Status.isOK_error (c : ErrCode) (m : ErrMsg) :
    (Status.error c m).IsOK = false := rfl

/-- A tensor shape: the list of its dimensions (`TensorShape::GetDims`). -/
structure TensorShape where
  dims : List Nat
deriving DecidableEq, Repr

/-- `TensorShape::IsScalar()`: rank 0. -/
def TensorShape.IsScalar (s : TensorShape) : Bool := s.dims.isEmpty

/-- The inputs of the greedy-search kernel that
`GreedySearchBase::CheckInputs` / `::Initialize` inspect: the shape of
`input_ids` (input 0) and the optional tensors `max_length` (input 1)
and `min_length` (input 2), each present with its shape or absent. -/
structure GreedySearchInputs where
  input_ids_shape : TensorShape
  max_length : Option TensorShape
  min_length : Option TensorShape
deriving DecidableEq, Repr

/-- The fields of `BeamSearchParameters` (aka `SamplingParameters`) that
`GreedySearchBase::Initialize` writes. -/
structure BeamSearchParameters where
  output_scores : Bool
  no_repeat_ngram_size : Nat
deriving DecidableEq, Repr

/-- `GreedySearchBase::CheckInputs`: `input_ids` must have exactly 2
dimensions, otherwise an `INVALID_ARGUMENT` status is returned whose
message carries the actual number of dimensions. -/
def CheckInputs (inputs : GreedySearchInputs) : Status :=
  let dims := inputs.input_ids_shape.dims
  if dims.length ≠ 2 then
    .error .INVALID_ARGUMENT (.inputIdsRank dims.length)
  else
    .ok

/-- One expansion of the `CHECK_SCALAR_INPUT(name, index, required)`
macro: a present tensor must be a scalar, an absent tensor is an error
iff `required`.  Returns `some status` when the macro returns early. -/
def checkScalarInput (name : ScalarInputName) (tensor : Option TensorShape)
    (required : Bool) : Option Status :=
  match tensor with
  | some sh =>
      if !sh.IsScalar then
        some (.error .FAIL (.scalarShape name sh.dims))
      else
        none
  | none =>
      if required then some (.error .FAIL (.requiredMissing name)) else none

/-- `GreedySearchBase::Initialize`: obtain the temp-space allocator
(whose outcome is the `tempAlloc` parameter), check `max_length`
(required scalar), check `min_length` (optional scalar), run
`CheckInputs`, and only then set `output_scores := false` and
`no_repeat_ngram_size := 0`.  Returns the status together with the
parameters as left by the call (unchanged on every early return). -/
def Initialize (tempAlloc : Status) (inputs : GreedySearchInputs)
    (params : BeamSearchParameters) : Status × BeamSearchParameters :=
  if !tempAlloc.IsOK then (tempAlloc, params)
  else
    match checkScalarInput .max_length inputs.max_length true with
    | some st => (st, params)
    | none =>
      match checkScalarInput .min_length inputs.min_length false with
      | some st => (st, params)
      | none =>
        let ci := CheckInputs inputs
        if !ci.IsOK then (ci, params)
        else
          (.ok, BeamSearchParameters.mk false 0)

/-- A `Status` is a "missing required input" condition when it is the
status the `CHECK_SCALAR_INPUT` macro builds for an absent required
input: code `FAIL`, message naming the input as required. -/
def MissingRequiredInputCondition (name : ScalarInputName) (s : Status) : Prop :=
  s = .error .FAIL (.requiredMissing name)

/-- A `Status` is a "non-scalar input" condition for `name` when it is
the status the `CHECK_SCALAR_INPUT` macro builds for a present
non-scalar input: code `FAIL`, message naming the input and carrying its
actual shape. -/
def NotScalarCondition (name : ScalarInputName) (shape : List Nat) (s : Status) : Prop :=
  s = .error .FAIL (.scalarShape name shape)

/-- Well-formedness of the validated inputs: `input_ids` is 2-D,
`max_length` is a present scalar, `min_length` is a scalar when
present. -/
def WellFormed (inputs : GreedySearchInputs) : Prop :=
  inputs.input_ids_shape.dims.length = 2 ∧
  (∃ sh, inputs.max_length = some sh ∧ sh.IsScalar = true) ∧
  (∀ sh, inputs.min_length = some sh → sh.IsScalar = true)

instance (inputs : GreedySearchInputs) : Decidable (WellFormed inputs) := by
  unfold WellFormed
  exact inferInstance

/-! ## Sequences and `GenerateNextToken` -/

/-- The per-(batch, beam) token buffers held by
`BeamSearchCpuState::sequences` (class `Sequences`), flattened over the
batch and beam axes. -/
structure Sequences where
  beams : List (List Int)
deriving DecidableEq, Repr

/-- Modelled from the spec: `Sequences::AppendNextTokenToSequences`
(file `sequences.cc`, not part of the excerpt).  Per the spec's
SequenceStore `append` operation, it "extends each active beam's buffer
by one token, using beam_indices to determine which prior beam's history
each new token extends": new beam `i` is the prior beam
`beam_indices[i]` extended by `next_tokens[i]`. -/
def Sequences.AppendNextTokenToSequences (s : Sequences)
    (beam_indices : List Nat) (next_tokens : List Int) : Sequences :=
  Sequences.mk ((beam_indices.zip next_tokens).map
    (fun p => (s.beams.getD p.1 []) ++ [p.2]))

/-- `GreedySearchBase::ProcessLogits` simply forwards to the injected
device helper `process_logits_func_` and returns its status
unchanged; the helper's result is the `process_logits_result`
parameter. -/
def ProcessLogits (process_logits_result : Status) : Status :=
  process_logits_result

/-- `GreedySearchBase::GenerateNextToken`: run `ProcessLogits`
(returning its error if any), run the injected `device_copy_func_`
(returning its error if any), then obtain the beam scorer's next tokens
and indices and call `AppendNextTokenToSequences` exactly once.  The
result pairs the returned status with the sequences as left by the
call. -/
def GenerateNextToken (process_logits_result device_copy_result : Status)
    (beam_indices : List Nat) (next_tokens : List Int)
    (sequences : Sequences) : Status × Sequences :=
  if !(ProcessLogits process_logits_result).IsOK then
    (ProcessLogits process_logits_result, sequences)
  else if !device_copy_result.IsOK then
    (device_copy_result, sequences)
  else
    (.ok, sequences.AppendNextTokenToSequences beam_indices next_tokens)

/-- The data of one decoding step, as seen by `GenerateNextToken`: the
statuses the two injected device helpers return, and the beam scorer's
selected parent indices and next tokens. -/
structure StepInput where
  process_logits_result : Status
  device_copy_result : Status
  beam_indices : List Nat
  next_tokens : List Int
deriving DecidableEq, Repr

/-- Iterate `GenerateNextToken` over a list of steps, stopping at the
first error (as the decoding loop's `ORT_RETURN_IF_ERROR` does). -/
def runGeneration : List StepInput → Sequences → Status × Sequences
  | [], s => (.ok, s)
  | step :: rest, s =>
    if (GenerateNextToken step.process_logits_result step.device_copy_result
        step.beam_indices step.next_tokens s).1 = .ok then
      runGeneration rest (GenerateNextToken step.process_logits_result
        step.device_copy_result step.beam_indices step.next_tokens s).2
    else
      GenerateNextToken step.process_logits_result step.device_copy_result
        step.beam_indices step.next_tokens s

/-- All beams of `s` have length `L`. -/
def Sequences.UniformLen (s : Sequences) (L : Nat) : Prop :=
  ∀ b ∈ s.beams, b.length = L

instance (s : Sequences) (L : Nat) : Decidable (s.UniformLen L) := by
  unfold Sequences.UniformLen
  exact inferInstance

/-- A step is shape-valid for `numBeams` beams: the scorer returns one
parent index and one token per beam, every parent index in range. -/
def StepInput.ValidFor (st : StepInput) (numBeams : Nat) : Prop :=
  st.beam_indices.length = numBeams ∧ st.next_tokens.length = numBeams ∧
  ∀ i ∈ st.beam_indices, i < numBeams

instance (st : StepInput) (n : Nat) : Decidable (st.ValidFor n) := by
  unfold StepInput.ValidFor
  exact inferInstance

end OnnxRT

/-! ## `Sampling::Compute` (`sampling.cc`) -/

namespace OnnxRT

/-- Which `GreedySearchGpt` instantiation `Sampling::Compute` ran:
the `float` branch, the `MLFloat16` branch, or none. -/
inductive ExecBranch
  | fp32
  | fp16
  | noBranch
deriving DecidableEq, Repr

/-- Observable trace of one `Sampling::Compute` call: the returned
status, whether `impl.Initialize()` was invoked, whether
`impl.Execute(...)` was invoked, and which typed branch was taken. -/
structure ComputeTrace where
  status : Status
  initializeCalled : Bool
  executeCalled : Bool
  branch : ExecBranch
deriving DecidableEq, Repr

/-- `Sampling::Compute`: when `parameters_.model_type == 0` (GPT-2) it
builds a `GreedySearchGpt` instantiated at `float` when the subgraph
output is not float16 and at `MLFloat16` otherwise, calls
`impl.Initialize()` (returning its error if any, via
`ORT_RETURN_IF_ERROR`) and then returns `impl.Execute(...)`.  For any
other `model_type` it returns `Status::OK()` without touching either
instantiation.  The outcomes of the four external calls are the
`init32, exec32, init16, exec16` parameters. -/
def SamplingCompute (model_type : Nat) (isOutputFloat16 : Bool)
    (init32 exec32 init16 exec16 : Status) : ComputeTrace :=
  if model_type = 0 then
    if !isOutputFloat16 then
      if !init32.IsOK then ComputeTrace.mk init32 true false .fp32
      else ComputeTrace.mk exec32 true true .fp32
    else
      if !init16.IsOK then ComputeTrace.mk init16 true false .fp16
      else ComputeTrace.mk exec16 true true .fp16
  else
    ComputeTrace.mk .ok false false .noBranch

/-- The `Initialize` outcome of the instantiation `Compute` selects. -/
def chosenInit (isOutputFloat16 : Bool) (init32 init16 : Status) : Status :=
  if isOutputFloat16 then init16 else init32

/-- The `Execute` outcome of the instantiation `Compute` selects. -/
def chosenExec (isOutputFloat16 : Bool) (exec32 exec16 : Status) : Status :=
  if isOutputFloat16 then exec16 else exec32

/-- The spec's generic decoding-loop control flow, written from its
words ("implement the core loop once, generic over a numeric element
type", with identical Initialize-then-Execute control flow): run
`Initialize`, and if it succeeded return the `Execute` outcome. -/
def runDecodingLoopSpec (init exec : Status) : Status :=
  if init.IsOK then exec else init

end OnnxRT

/-! ## `js::DataTransfer` (`data_transfer.cc`) -/

namespace OnnxRT.js

/-- `OrtDevice` device types relevant to the JS execution provider. -/
inductive OrtDeviceType
  | CPU
  | GPU
deriving DecidableEq, Repr

/-- `DataTransfer::CanCopy`: true exactly for CPU-to-GPU and GPU-to-CPU
pairs. -/
def CanCopy (src_device dst_device : OrtDeviceType) : Bool :=
  (dst_device = .GPU ∧ src_device = .CPU) ∨
  (dst_device = .CPU ∧ src_device = .GPU)

/-- The transfer path `DataTransfer::CopyTensor` executes:
`Module.jsepUpload()` (host to device), `Module.jsepDownload()` (device
to host), or a raw `memcpy`. -/
inductive TransferPath
  | jsepUpload
  | jsepDownload
  | memcpyPath
deriving DecidableEq, Repr

/-- A tensor as `CopyTensor` sees it: the device of its location and its
raw bytes (`SizeInBytes()` is the byte count). -/
structure Tensor where
  device : OrtDeviceType
  data : List Nat
deriving DecidableEq, Repr

/-- `DataTransfer::CopyTensor`: if the destination is on GPU take the
upload path, else if the source is on GPU take the download path, else
`memcpy` `src.SizeInBytes()` bytes from src's data to dst's data; in
every case return `Status::OK()`.  The result is the status, dst's data
after the call, and the path taken.  (The two `EM_ASM` paths hand the
transfer to the embedder and leave dst's host bytes untouched.) -/
def CopyTensor (src dst : Tensor) : Status × Tensor × TransferPath :=
  if dst.device = .GPU then
    (.ok, dst, .jsepUpload)
  else if src.device = .GPU then
    (.ok, dst, .jsepDownload)
  else
    (.ok, Tensor.mk dst.device (src.data ++ dst.data.drop src.data.length),
      .memcpyPath)

end OnnxRT.js

/-! ## Helper lemmas -/

namespace OnnxRT

/-- The `CHECK_SCALAR_INPUT` macro only ever returns early with an error
status, never with `Status::OK()`. -/
theorem checkScalarInput_some_not_ok (name : ScalarInputName)
    (t : Option TensorShape) (req : Bool) (st : Status)
    (h : checkScalarInput name t req = some st) : st ≠ Status.ok := by
  unfold checkScalarInput at h
  cases t with
  | some sh =>
    by_cases hs : sh.IsScalar = true
    · simp [hs] at h
    · have hs2 : sh.IsScalar = false := by simpa using hs
      simp only [hs2, Bool.not_false, if_true, Option.some.injEq] at h
      subst h
      simp
  | none =>
    cases req with
    | false => simp at h
    | true =>
      simp only [if_true, Option.some.injEq] at h
      subst h
      simp

/-- Whenever `Initialize` succeeds, the parameters it returns are the
overridden ones: `output_scores = false`, `no_repeat_ngram_size = 0`. -/
theorem Initialize_ok_params (tempAlloc : Status)
    (inputs : GreedySearchInputs) (params : BeamSearchParameters)
    (hok : (Initialize tempAlloc inputs params).1 = .ok) :
    (Initialize tempAlloc inputs params).2 = ⟨false, 0⟩ := by
  cases tempAlloc with
  | error c m => exact Status.noConfusion hok
  | ok =>
    unfold Initialize at hok ⊢
    simp only [Status.isOK_ok, Bool.not_true, Bool.false_eq_true,
      if_false] at hok ⊢
    cases hmax : checkScalarInput .max_length inputs.max_length true with
    | some st =>
      rw [hmax] at hok
      exact absurd hok (checkScalarInput_some_not_ok _ _ _ _ hmax)
    | none =>
      rw [hmax] at hok
      cases hmin : checkScalarInput .min_length inputs.min_length false with
      | some st =>
        rw [hmin] at hok
        exact absurd hok (checkScalarInput_some_not_ok _ _ _ _ hmin)
      | none =>
        rw [hmin] at hok
        cases hci : CheckInputs inputs with
        | error c m =>
          rw [hci] at hok
          exact Status.noConfusion hok
        | ok => rfl

/-- A successful `GenerateNextToken` step on uniformly sized, shape-valid
input yields beams of uniform length `L + 1`, with the beam count
preserved. -/
theorem generateNextToken_step (pls dcs : Status) (bi : List Nat)
    (nt : List Int) (s : Sequences) (L numBeams : Nat)
    (hcount : s.beams.length = numBeams)
    (hlen : s.UniformLen L)
    (hbi : bi.length = numBeams) (hnt : nt.length = numBeams)
    (hidx : ∀ i ∈ bi, i < numBeams)
    (hok : (GenerateNextToken pls dcs bi nt s).1 = .ok) :
    (GenerateNextToken pls dcs bi nt s).2.beams.length = numBeams ∧
    (GenerateNextToken pls dcs bi nt s).2.UniformLen (L + 1) := by
  cases pls with
  | error c m => simp [GenerateNextToken, ProcessLogits, Status.IsOK] at hok
  | ok =>
    cases dcs with
    | error c m => simp [GenerateNextToken, ProcessLogits, Status.IsOK] at hok
    | ok =>
      have hred : GenerateNextToken .ok .ok bi nt s =
          (.ok, s.AppendNextTokenToSequences bi nt) := rfl
      rw [hred]
      constructor
      · simp [Sequences.AppendNextTokenToSequences, List.length_zip, hbi, hnt]
      · intro b hb
        simp only [Sequences.AppendNextTokenToSequences, List.mem_map] at hb
        obtain ⟨⟨i, t⟩, hp2, rfl⟩ := hb
        have hmem := List.of_mem_zip hp2
        have hlt : i < s.beams.length := by
          rw [hcount]; exact hidx i hmem.1
        have hget : s.beams.getD i [] = s.beams[i] := by
          rw [List.getD_eq_getElem?_getD, List.getElem?_eq_getElem hlt]
          rfl
        have hb2 : s.beams[i] ∈ s.beams := List.getElem_mem hlt
        simp only [hget, List.length_append, hlen _ hb2]
        rfl

/-- Iterating `runGeneration` to a successful end over shape-valid steps
adds one token per beam per step. -/
theorem runGeneration_uniform (steps : List StepInput) (s : Sequences)
    (L numBeams : Nat)
    (hcount : s.beams.length = numBeams)
    (hlen : s.UniformLen L)
    (hsteps : ∀ st ∈ steps, st.ValidFor numBeams)
    (hok : (runGeneration steps s).1 = .ok) :
    (runGeneration steps s).2.beams.length = numBeams ∧
    (runGeneration steps s).2.UniformLen (L + steps.length) := by
  induction steps generalizing s L with
  | nil => simpa [runGeneration] using ⟨hcount, hlen⟩
  | cons st rest ih =>
    have hv := hsteps st (List.mem_cons_self st rest)
    obtain ⟨hbi, hnt, hidx⟩ := hv
    simp only [runGeneration] at hok ⊢
    by_cases hfirst :
        (GenerateNextToken st.process_logits_result st.device_copy_result
          st.beam_indices st.next_tokens s).1 = Status.ok
    · have hstep := generateNextToken_step st.process_logits_result
        st.device_copy_result st.beam_indices st.next_tokens s L numBeams
        hcount hlen hbi hnt hidx hfirst
      rw [if_pos hfirst] at hok ⊢
      have hrest := ih _ _ hstep.1 hstep.2
        (fun x hx => hsteps x (List.mem_cons_of_mem st hx)) hok
      refine ⟨hrest.1, ?_⟩
      have harith : L + 1 + rest.length = L + (st :: rest).length := by
        simp [List.length_cons]; omega
      rw [← harith]
      exact hrest.2
    · rw [if_neg hfirst] at hok
      exact absurd hok hfirst

end OnnxRT

/-! ## Claims -/

namespace OnnxRT

/-- C1: each successful `GenerateNextToken` call appends exactly one next
token per beam to the stored sequences (one
`AppendNextTokenToSequences` invocation per step, after selection), so
after `N` completed steps every sequence's length equals the prompt
length plus `N`: starting from per-beam buffers all of prompt length
`L`, a successfully completed run of `N` steps with shape-valid scorer
outputs leaves every beam with length `L + N` and the beam count
unchanged. -/
theorem C1_append_one_token_per_step (steps : List StepInput)
    (s : Sequences) (L numBeams : Nat)
    (hcount : s.beams.length = numBeams)
    (hlen : s.UniformLen L)
    (hsteps : ∀ st ∈ steps, st.ValidFor numBeams)
    (hok : (runGeneration steps s).1 = .ok) :
    (runGeneration steps s).2.beams.length = numBeams ∧
    (runGeneration steps s).2.UniformLen (L + steps.length) :=
  runGeneration_uniform steps s L numBeams hcount hlen hsteps hok

/-- Witness for C1: a prompt `[5, 7]` on one beam, two successful greedy
steps (identity beam index), ending with both claimed properties at
length 4. -/
theorem C1_append_one_token_per_step_witness :
    ((⟨[[5, 7]]⟩ : Sequences).beams.length = 1 ∧
      (⟨[[5, 7]]⟩ : Sequences).UniformLen 2 ∧
      (∀ st ∈ [StepInput.mk .ok .ok [0] [9], StepInput.mk .ok .ok [0] [9]],
        st.ValidFor 1) ∧
      (runGeneration [StepInput.mk .ok .ok [0] [9],
        StepInput.mk .ok .ok [0] [9]] ⟨[[5, 7]]⟩).1 = .ok) ∧
    ((runGeneration [StepInput.mk .ok .ok [0] [9],
        StepInput.mk .ok .ok [0] [9]] ⟨[[5, 7]]⟩).2.beams.length = 1 ∧
      (runGeneration [StepInput.mk .ok .ok [0] [9],
        StepInput.mk .ok .ok [0] [9]] ⟨[[5, 7]]⟩).2.UniformLen (2 + 2)) :=
  ⟨⟨by decide, by decide, by decide, by decide⟩,
    C1_append_one_token_per_step _ _ 2 1 (by decide) (by decide)
      (by decide) (by decide)⟩

/-- C2: validation succeeds iff the inputs are well-formed and fails
exactly as specified: a non-2-D `input_ids` makes `CheckInputs` return
an `INVALID_ARGUMENT` condition naming the offending input and its
actual dimensionality; an absent `max_length` makes `Initialize` fail
with the missing-required-input condition; a non-scalar `max_length`
(or `min_length`, once `max_length` passed) makes `Initialize` fail
with a condition naming the input and its actual shape; and with
well-formed inputs `Initialize` returns success. -/
theorem C2_validation (inputs : GreedySearchInputs)
    (params : BeamSearchParameters) :
    (inputs.input_ids_shape.dims.length ≠ 2 →
      CheckInputs inputs =
        .error .INVALID_ARGUMENT
          (.inputIdsRank inputs.input_ids_shape.dims.length)) ∧
    (inputs.max_length = none →
      MissingRequiredInputCondition .max_length
        (Initialize .ok inputs params).1) ∧
    (∀ sh, inputs.max_length = some sh → sh.IsScalar = false →
      NotScalarCondition .max_length sh.dims
        (Initialize .ok inputs params).1) ∧
    (∀ shMax sh, inputs.max_length = some shMax → shMax.IsScalar = true →
      inputs.min_length = some sh → sh.IsScalar = false →
      NotScalarCondition .min_length sh.dims
        (Initialize .ok inputs params).1) ∧
    (WellFormed inputs → (Initialize .ok inputs params).1 = .ok) := by
  refine ⟨?_, ?_, ?_, ?_, ?_⟩
  · intro h
    simp [CheckInputs, h]
  · intro h
    simp [Initialize, Status.IsOK, checkScalarInput, h,
      MissingRequiredInputCondition]
  · intro sh hsome hns
    simp [Initialize, Status.IsOK, checkScalarInput, hsome, hns,
      NotScalarCondition]
  · intro shMax sh hmax hmaxSc hsome hns
    simp [Initialize, Status.IsOK, checkScalarInput, hmax, hmaxSc, hsome,
      hns, NotScalarCondition]
  · rintro ⟨h2, ⟨shMax, hmax, hmaxSc⟩, hmin⟩
    cases hminCase : inputs.min_length with
    | none =>
      simp [Initialize, Status.IsOK, checkScalarInput, hmax, hmaxSc,
        hminCase, CheckInputs, h2]
    | some sh =>
      have := hmin sh hminCase
      simp [Initialize, Status.IsOK, checkScalarInput, hmax, hmaxSc,
        hminCase, this, CheckInputs, h2]

/-- Witness for C2: all five conjuncts exercised at concrete inputs — a
3-D `input_ids`, a missing `max_length`, a 1-D `max_length`, a 1-D
`min_length` behind a scalar `max_length`, and a fully well-formed
input. -/
theorem C2_validation_witness :
    (CheckInputs ⟨⟨[4, 3, 2]⟩, some ⟨[]⟩, none⟩ =
      .error .INVALID_ARGUMENT (.inputIdsRank 3)) ∧
    (MissingRequiredInputCondition .max_length
      (Initialize .ok ⟨⟨[1, 2]⟩, none, none⟩ ⟨true, 3⟩).1) ∧
    (NotScalarCondition .max_length [5]
      (Initialize .ok ⟨⟨[1, 2]⟩, some ⟨[5]⟩, none⟩ ⟨true, 3⟩).1) ∧
    (NotScalarCondition .min_length [7]
      (Initialize .ok ⟨⟨[1, 2]⟩, some ⟨[]⟩, some ⟨[7]⟩⟩ ⟨true, 3⟩).1) ∧
    ((Initialize .ok ⟨⟨[1, 2]⟩, some ⟨[]⟩, some ⟨[]⟩⟩ ⟨true, 3⟩).1 = .ok) :=
  ⟨(C2_validation ⟨⟨[4, 3, 2]⟩, some ⟨[]⟩, none⟩ ⟨true, 3⟩).1 (by decide),
    (C2_validation ⟨⟨[1, 2]⟩, none, none⟩ ⟨true, 3⟩).2.1 (by decide),
    (C2_validation ⟨⟨[1, 2]⟩, some ⟨[5]⟩, none⟩ ⟨true, 3⟩).2.2.1 ⟨[5]⟩
      (by decide) (by decide),
    (C2_validation ⟨⟨[1, 2]⟩, some ⟨[]⟩, some ⟨[7]⟩⟩ ⟨true, 3⟩).2.2.2.1
      ⟨[]⟩ ⟨[7]⟩ (by decide) (by decide) (by decide) (by decide),
    (C2_validation ⟨⟨[1, 2]⟩, some ⟨[]⟩, some ⟨[]⟩⟩ ⟨true, 3⟩).2.2.2.2
      (by decide)⟩

/-- C3: whenever `Initialize` returns success it has set
`no_repeat_ngram_size` to 0 and `output_scores` to `false`, regardless
of their incoming values (a failed `Initialize` aborts the run before
any loop starts, so a greedy run never sees other values). -/
theorem C3_greedy_overrides (tempAlloc : Status)
    (inputs : GreedySearchInputs) (params : BeamSearchParameters)
    (hok : (Initialize tempAlloc inputs params).1 = .ok) :
    (Initialize tempAlloc inputs params).2.no_repeat_ngram_size = 0 ∧
    (Initialize tempAlloc inputs params).2.output_scores = false := by
  rw [Initialize_ok_params tempAlloc inputs params hok]
  exact ⟨rfl, rfl⟩

/-- Witness for C3: incoming parameters with `output_scores = true` and
`no_repeat_ngram_size = 4` on well-formed inputs; after a successful
`Initialize` both are overridden. -/
theorem C3_greedy_overrides_witness :
    ((Initialize .ok ⟨⟨[1, 2]⟩, some ⟨[]⟩, none⟩ ⟨true, 4⟩).1 = .ok) ∧
    ((Initialize .ok ⟨⟨[1, 2]⟩, some ⟨[]⟩, none⟩
        ⟨true, 4⟩).2.no_repeat_ngram_size = 0 ∧
      (Initialize .ok ⟨⟨[1, 2]⟩, some ⟨[]⟩, none⟩
        ⟨true, 4⟩).2.output_scores = false) :=
  ⟨by decide,
    C3_greedy_overrides .ok ⟨⟨[1, 2]⟩, some ⟨[]⟩, none⟩ ⟨true, 4⟩
      (by decide)⟩

/-- C4: `GenerateNextToken` propagates an error of the process-logits
device function, or of the device-copy function, unchanged to its
caller, and in either case no token is appended: the sequences come
back exactly as they were. -/
theorem C4_error_propagation (pls dcs : Status) (bi : List Nat)
    (nt : List Int) (s : Sequences) :
    (pls ≠ .ok → GenerateNextToken pls dcs bi nt s = (pls, s)) ∧
    (pls = .ok → dcs ≠ .ok → GenerateNextToken pls dcs bi nt s = (dcs, s)) := by
  constructor
  · intro h
    have : pls.IsOK = false := by
      cases pls with
      | ok => exact absurd rfl h
      | error c m => rfl
    simp [GenerateNextToken, ProcessLogits, this]
  · intro h1 h2
    have hdf : dcs.IsOK = false := by
      cases dcs with
      | ok => exact absurd rfl h2
      | error c m => rfl
    subst h1
    simp [GenerateNextToken, ProcessLogits, hdf]

/-- Witness for C4: a failing process-logits status and, separately, a
failing device-copy status, each returned unchanged with the sequences
untouched. -/
theorem C4_error_propagation_witness :
    (GenerateNextToken (.error .FAIL (.external 1)) .ok [0] [3] ⟨[[1]]⟩ =
      (.error .FAIL (.external 1), ⟨[[1]]⟩)) ∧
    (GenerateNextToken .ok (.error .FAIL (.external 2)) [0] [3] ⟨[[1]]⟩ =
      (.error .FAIL (.external 2), ⟨[[1]]⟩)) :=
  ⟨(C4_error_propagation (.error .FAIL (.external 1)) .ok [0] [3]
      ⟨[[1]]⟩).1 (by decide),
    (C4_error_propagation .ok (.error .FAIL (.external 2)) [0] [3]
      ⟨[[1]]⟩).2 rfl (by decide)⟩

/-- C5: `Sampling::Compute` enters `Execute` only after `Initialize`
returned success, and when the selected instantiation's `Initialize`
fails on a GPT-2 run, `Compute` returns that very error with `Execute`
never invoked. -/
theorem C5_initialize_gates_execute (model_type : Nat)
    (isOutputFloat16 : Bool) (init32 exec32 init16 exec16 : Status) :
    ((SamplingCompute model_type isOutputFloat16 init32 exec32 init16
        exec16).executeCalled = true →
      chosenInit isOutputFloat16 init32 init16 = .ok) ∧
    (model_type = 0 →
      chosenInit isOutputFloat16 init32 init16 ≠ .ok →
      (SamplingCompute model_type isOutputFloat16 init32 exec32 init16
          exec16).status = chosenInit isOutputFloat16 init32 init16 ∧
      (SamplingCompute model_type isOutputFloat16 init32 exec32 init16
          exec16).executeCalled = false) := by
  by_cases hmt : model_type = 0
  · subst hmt
    cases isOutputFloat16 with
    | false =>
      cases init32 with
      | ok =>
        exact ⟨fun _ => rfl, fun _ hne => absurd rfl hne⟩
      | error c m =>
        refine ⟨fun h => ?_, fun _ _ => ⟨rfl, rfl⟩⟩
        simp [SamplingCompute, Status.IsOK] at h
    | true =>
      cases init16 with
      | ok =>
        exact ⟨fun _ => rfl, fun _ hne => absurd rfl hne⟩
      | error c m =>
        refine ⟨fun h => ?_, fun _ _ => ⟨rfl, rfl⟩⟩
        simp [SamplingCompute, Status.IsOK] at h
  · refine ⟨fun h => ?_, fun h0 _ => absurd h0 hmt⟩
    simp [SamplingCompute, hmt] at h

/-- Witness for C5: a GPT-2 run (`model_type = 0`, float branch) whose
`Initialize` fails; `Compute` returns exactly that error and `Execute`
is not invoked. -/
theorem C5_initialize_gates_execute_witness :
    ((0 : Nat) = 0 ∧
      chosenInit false (.error .FAIL (.external 7)) .ok ≠ .ok) ∧
    ((SamplingCompute 0 false (.error .FAIL (.external 7)) .ok .ok
        .ok).status = chosenInit false (.error .FAIL (.external 7)) .ok ∧
      (SamplingCompute 0 false (.error .FAIL (.external 7)) .ok .ok
        .ok).executeCalled = false) :=
  ⟨⟨rfl, by decide⟩,
    (C5_initialize_gates_execute 0 false (.error .FAIL (.external 7)) .ok
      .ok .ok).2 rfl (by decide)⟩

/-- C8: for GPT-2 (`model_type = 0`) both typed branches of
`Sampling::Compute` refine the one generic Initialize-then-Execute loop
of the spec: the returned status equals `runDecodingLoopSpec` applied to
the selected instantiation's outcomes, the `MLFloat16` branch is taken
iff the subgraph output is float16, and `Initialize` is invoked in both
branches. -/
theorem C8_generic_loop_refinement (isOutputFloat16 : Bool)
    (init32 exec32 init16 exec16 : Status) :
    (SamplingCompute 0 isOutputFloat16 init32 exec32 init16 exec16).status =
      runDecodingLoopSpec (chosenInit isOutputFloat16 init32 init16)
        (chosenExec isOutputFloat16 exec32 exec16) ∧
    ((SamplingCompute 0 isOutputFloat16 init32 exec32 init16
        exec16).branch = .fp16 ↔ isOutputFloat16 = true) ∧
    (SamplingCompute 0 isOutputFloat16 init32 exec32 init16
        exec16).initializeCalled = true := by
  unfold SamplingCompute runDecodingLoopSpec chosenInit chosenExec
  cases isOutputFloat16 with
  | false =>
    cases h : init32.IsOK <;> simp [h]
  | true =>
    cases h : init16.IsOK <;> simp [h]

/-- C9: for any `model_type` other than 0, `Sampling::Compute` returns
`Status::OK()` without invoking `Initialize` or `Execute` of either
instantiation — a silent successful no-op. -/
theorem C9_non_gpt2_noop (model_type : Nat) (isOutputFloat16 : Bool)
    (init32 exec32 init16 exec16 : Status) (h : model_type ≠ 0) :
    SamplingCompute model_type isOutputFloat16 init32 exec32 init16 exec16 =
      ComputeTrace.mk .ok false false .noBranch := by
  simp [SamplingCompute, h]

/-- Witness for C9: `model_type = 1` yields the OK no-op trace even with
failing device outcomes supplied. -/
theorem C9_non_gpt2_noop_witness :
    (1 : Nat) ≠ 0 ∧
    SamplingCompute 1 true (.error .FAIL (.external 3))
        (.error .FAIL (.external 4)) (.error .FAIL (.external 5))
        (.error .FAIL (.external 6)) =
      ComputeTrace.mk .ok false false .noBranch :=
  ⟨by decide,
    C9_non_gpt2_noop 1 true (.error .FAIL (.external 3))
      (.error .FAIL (.external 4)) (.error .FAIL (.external 5))
      (.error .FAIL (.external 6)) (by decide)⟩

end OnnxRT

namespace OnnxRT.js

/-- C6: `CopyTensor` chooses the transfer path purely from the declared
device types: GPU destination takes the upload path; otherwise a GPU
source takes the download path; otherwise (CPU to CPU) it performs a
direct copy of `src.SizeInBytes()` bytes from src's data into dst's
data. -/
theorem C6_copy_path_selection (src dst : Tensor) :
    (CopyTensor src dst).2.2 =
      (if dst.device = .GPU then .jsepUpload
       else if src.device = .GPU then .jsepDownload
       else .memcpyPath) ∧
    (dst.device = .CPU → src.device = .CPU →
      (CopyTensor src dst).2.1.data =
        src.data ++ dst.data.drop src.data.length) := by
  constructor
  · unfold CopyTensor
    by_cases hd : dst.device = OrtDeviceType.GPU
    · simp [hd]
    · by_cases hs : src.device = OrtDeviceType.GPU <;> simp [hd, hs]
  · intro hd hs
    have hd2 : dst.device ≠ OrtDeviceType.GPU := by
      rw [hd]; intro h; cases h
    have hs2 : src.device ≠ OrtDeviceType.GPU := by
      rw [hs]; intro h; cases h
    simp [CopyTensor, hd2, hs2]

/-- Witness for C6: a CPU-to-CPU copy of 2 bytes into a 3-byte
destination overwrites exactly the first 2 bytes. -/
theorem C6_copy_path_selection_witness :
    ((CopyTensor (Tensor.mk .CPU [10, 11]) (Tensor.mk .CPU [1, 2, 3])).2.2 =
      (if (Tensor.mk OrtDeviceType.CPU [1, 2, 3]).device = .GPU then
        TransferPath.jsepUpload
       else if (Tensor.mk OrtDeviceType.CPU [10, 11]).device = .GPU then
        TransferPath.jsepDownload
       else TransferPath.memcpyPath)) ∧
    ((CopyTensor (Tensor.mk .CPU [10, 11])
        (Tensor.mk .CPU [1, 2, 3])).2.1.data =
      [10, 11] ++ [1, 2, 3].drop ([10, 11] : List Nat).length) :=
  ⟨(C6_copy_path_selection (Tensor.mk .CPU [10, 11])
      (Tensor.mk .CPU [1, 2, 3])).1,
    (C6_copy_path_selection (Tensor.mk .CPU [10, 11])
      (Tensor.mk .CPU [1, 2, 3])).2 rfl rfl⟩

/-- Counterexample to C7 as stated: for src and dst both CPU (same
device), `CanCopy` returns `false`, not `true`. -/
theorem C7_counterexample :
    CanCopy OrtDeviceType.CPU OrtDeviceType.CPU = false := by decide

/-- C7 amended: `CanCopy` accepts exactly the cross-device pairs — it
returns `true` iff one side is CPU and the other GPU — so a same-device
CPU-to-CPU copy is rejected at this interface (even though `CopyTensor`
itself has a CPU-to-CPU `memcpy` fallback path). -/
theorem C7_cancopy_cross_device_only (src dst : OrtDeviceType) :
    CanCopy src dst = true ↔
      ((src = .CPU ∧ dst = .GPU) ∨ (src = .GPU ∧ dst = .CPU)) := by
  cases src <;> cases dst <;> simp [CanCopy]

/-- C10: `CopyTensor` returns `Status::OK()` for every src/dst tensor
pair, on all three paths. -/
theorem C10_copytensor_always_ok (src dst : Tensor) :
    (CopyTensor src dst).1 = .ok := by
  unfold CopyTensor
  by_cases hd : dst.device = OrtDeviceType.GPU
  · simp [hd]
  · by_cases hs : src.device = OrtDeviceType.GPU <;> simp [hd, hs]

end OnnxRT.js
